import Mathlib

/-!
Verification of the fleet installer `install_splunk_uf.py`.

The development is a shallow embedding of the script.  A remote host is
modelled as a deterministic oracle from command strings to execution
outcomes; every embedded function returns, besides the value the Python
function returns, the ordered list of commands it issued over the SSH
session, so that claims of the shape "no X command is issued" become
statements about that trace.  The thread pool used by `batch_install` is
modelled as a small-step relation on a pool state (pending / running /
done), with the `max_workers` bound as the guard of the dispatch step.

Wall-clock timestamps, logging output and the on-disk result file are not
modelled: no claim depends on them.
-/

/-! ### Kernel-computable counterparts of the Python string methods

`String` in Lean is a structure over `List Char`, so helpers written with
structural list recursion evaluate inside the kernel.  Each helper mirrors
the Python `str` method named in its comment. -/

/-- Python `str.strip()` (no argument): drop whitespace on both ends. -/
def pyStrip (s : String) : String :=
  String.mk (((s.data.dropWhile Char.isWhitespace).reverse.dropWhile Char.isWhitespace).reverse)

/-- Python `str.lower()`. -/
def pyLower (s : String) : String :=
  String.mk (s.data.map Char.toLower)

/-- Python `str.endswith(suffix)`. -/
def pyEndsWith (s suffix : String) : Bool :=
  List.isPrefixOf suffix.data.reverse s.data.reverse

/-- Numeric value of a digit list, most significant first. -/
def digitsVal (ds : List Char) : Nat :=
  ds.foldl (fun n c => n * 10 + (c.toNat - 48)) 0

/-- Python `int(s)` on an already-stripped string: optional sign followed by
digits; anything else raises `ValueError`, modelled as `none`.
(Python also accepts underscore digit separators and non-ASCII digits;
the script only ever feeds this the output of `free`/`df`.) -/
def pyToInt? (s : String) : Option Int :=
  match s.data with
  | [] => none
  | '-' :: ds =>
    if !ds.isEmpty && ds.all Char.isDigit then some (-(digitsVal ds : Int)) else none
  | '+' :: ds =>
    if !ds.isEmpty && ds.all Char.isDigit then some (digitsVal ds : Int) else none
  | ds =>
    if ds.all Char.isDigit then some (digitsVal ds : Int) else none

/-- Python `url.split('/')[-1]`: the segment after the last slash
(the whole string when it has no slash, `""` when it ends in a slash). -/
def lastSegmentAfterSlash (s : String) : String :=
  String.mk ((s.data.reverse.takeWhile (fun c => c ≠ '/')).reverse)

/-- The message of the `ValueError` raised by `int()` on a bad literal.
The exact Python rendering quotes the operand; no claim depends on the
precise text, only on the call failing. -/
def pyIntError (s : String) : String :=
  "invalid literal for int() with base 10: " ++ s

/-! ### The remote-execution model -/

/-- Outcome of one `ssh_client.exec_command` interaction: either an exit
status with the captured stdout/stderr, or a raised exception (transport
error, timeout, failed channel read) carrying its message. -/
inductive ExecOutcome where
  | ok (exitStatus : Nat) (stdout stderr : String)
  | raise (msg : String)
deriving DecidableEq

/-- A remote host as seen through the session: a deterministic response to
each command string. -/
def Env : Type := String → ExecOutcome

/-- One target host together with the behaviour of `create_ssh_client`
against it: `connect = some m` means the connection attempt raised `m`
(the method logs and re-raises), `none` means a session was opened. -/
structure HostEnv where
  connect : Option String
  exec : Env

/-- One entry of the `servers` list of the configuration, with the
`server.get(...)` defaults already applied. -/
structure Server where
  host : String
  port : Nat
  username : String
  password : Option String
  key_file : Option String
  os_type : String
deriving DecidableEq

/-- The loaded configuration object, with the `config.get(...)` defaults
already applied (`min_memory_mb` 512, `min_disk_mb` 2048,
`force_reinstall` False, `cleanup_after_install` True, addresses `''`,
`max_concurrent_installs` 3, `delay_between_batches_seconds` 5). -/
structure Config where
  servers : List Server
  min_memory_mb : Int
  min_disk_mb : Int
  force_reinstall : Bool
  cleanup_after_install : Bool
  deployment_server : String
  receiving_indexer : String
  download_url : String
  max_concurrent_installs : Nat
  delay_between_batches_seconds : Nat
deriving DecidableEq

/-- The per-host result dictionary built by `install_on_server`
(the wall-clock `timestamp` field is not modelled). -/
structure HostResult where
  host : String
  success : Bool
  message : String
deriving DecidableEq

/-! ### The exact command strings of the script

These literals are the wire contract with the managed hosts; `\x27` is the
single-quote character and `\x7b`/`\x7d` are braces. -/

def uptimeCmd : String := "uptime"

def memCmd : String := "free -m | grep Mem | awk \x27\x7bprint $7\x7d\x27"

def diskCmd : String := "df -m /opt | tail -1 | awk \x27\x7bprint $4\x7d\x27"

def installedCmd : String := "test -d /opt/splunkforwarder && echo \x27exists\x27"

def unameCmd : String := "uname -s"

/-- `package_name = download_url.split('/')[-1]`. -/
def package_name (download_url : String) : String :=
  lastSegmentAfterSlash download_url

def testPackageCmd (download_url : String) : String :=
  "test -f /tmp/" ++ (package_name download_url ++ " && echo \x27exists\x27")

def downloadCmd (download_url : String) : String :=
  "cd /tmp && wget -q -O " ++ (package_name download_url ++ (" \x27" ++ (download_url ++
    ("\x27 || curl -s -o " ++ (package_name download_url ++ (" \x27" ++ (download_url ++
      "\x27")))))))

def tarCmd (package_path : String) : String := "cd /opt && tar xzf " ++ package_path

def rpmCmd (package_path : String) : String := "rpm -ivh " ++ package_path

def dpkgCmd (package_path : String) : String := "dpkg -i " ++ package_path

def acceptLicenseCmd : String :=
  "/opt/splunkforwarder/bin/splunk start --accept-license --answer-yes --no-prompt"

def stopCmd : String := "/opt/splunkforwarder/bin/splunk stop"

def deployPollCmd (deployment_server : String) : String :=
  "/opt/splunkforwarder/bin/splunk set deploy-poll " ++ (deployment_server ++
    " -auth admin:changeme")

def forwardServerCmd (receiving_indexer : String) : String :=
  "/opt/splunkforwarder/bin/splunk add forward-server " ++ (receiving_indexer ++
    " -auth admin:changeme")

def bootStartCmd : String := "/opt/splunkforwarder/bin/splunk enable boot-start"

def startCmd : String := "/opt/splunkforwarder/bin/splunk start"

def rmCmd (package_path : String) : String := "rm -f " ++ package_path

/-! ### The step functions

Each returns the value the Python function returns, paired with the list
of commands issued over the session (a raised exception still lists the
command it was attempting). -/

/-- `check_system_resources`: reads `uptime` (informational), available
memory and available disk, parses the numbers, and compares them against
the configured thresholds.  Any exception -- a failed execution or a
failed `int()` parse -- is caught and returned as `(False, str(e))`. -/
def check_system_resources (env : Env) (cfg : Config) : (Bool × String) × List String :=
  match env uptimeCmd with
  | .raise m => ((false, m), [uptimeCmd])
  | .ok _ _ _ =>
  match env memCmd with
  | .raise m => ((false, m), [uptimeCmd, memCmd])
  | .ok _ memOut _ =>
  match pyToInt? (pyStrip memOut) with
  | none => ((false, pyIntError (pyStrip memOut)), [uptimeCmd, memCmd])
  | some available_mem =>
  match env diskCmd with
  | .raise m => ((false, m), [uptimeCmd, memCmd, diskCmd])
  | .ok _ diskOut _ =>
  match pyToInt? (pyStrip diskOut) with
  | none => ((false, pyIntError (pyStrip diskOut)), [uptimeCmd, memCmd, diskCmd])
  | some available_disk =>
  if available_mem < cfg.min_memory_mb then
    ((false, "内存不足 (可用: " ++ toString available_mem ++ "MB, 需要: " ++
        toString cfg.min_memory_mb ++ "MB)"), [uptimeCmd, memCmd, diskCmd])
  else if available_disk < cfg.min_disk_mb then
    ((false, "磁盘空间不足 (可用: " ++ toString available_disk ++ "MB, 需要: " ++
        toString cfg.min_disk_mb ++ "MB)"), [uptimeCmd, memCmd, diskCmd])
  else
    ((true, "资源检查通过"), [uptimeCmd, memCmd, diskCmd])

/-- `check_if_installed`: tests for `/opt/splunkforwarder`; an exception is
caught and reported as not installed. -/
def check_if_installed (env : Env) : Bool × List String :=
  match env installedCmd with
  | .raise _ => (false, [installedCmd])
  | .ok _ out _ => (pyStrip out == "exists", [installedCmd])

/-- `download_splunk_package`: runs `uname -s` (result unused), derives the
package name from the URL, returns the existing path if the file is
already in `/tmp`, otherwise downloads with wget falling back to curl and
checks the exit status.  Note that `os_type` is never consulted here. -/
def download_splunk_package (env : Env) (download_url : String) (os_type : String) :
    (Bool × String) × List String :=
  match env unameCmd with
  | .raise m => ((false, m), [unameCmd])
  | .ok _ _ _ =>
  match env (testPackageCmd download_url) with
  | .raise m => ((false, m), [unameCmd, testPackageCmd download_url])
  | .ok _ out _ =>
  if pyStrip out == "exists" then
    ((true, "/tmp/" ++ package_name download_url), [unameCmd, testPackageCmd download_url])
  else
  match env (downloadCmd download_url) with
  | .raise m =>
    ((false, m), [unameCmd, testPackageCmd download_url, downloadCmd download_url])
  | .ok st _ err =>
  if st ≠ 0 then
    ((false, "下载失败: " ++ pyStrip err),
      [unameCmd, testPackageCmd download_url, downloadCmd download_url])
  else
    ((true, "/tmp/" ++ package_name download_url),
      [unameCmd, testPackageCmd download_url, downloadCmd download_url])

/-- Shared tail of `install_splunk`: run the selected install command and
inspect its exit status. -/
def runInstallCmd (env : Env) (cmd : String) : (Bool × String) × List String :=
  match env cmd with
  | .raise m => ((false, m), [cmd])
  | .ok st _ err =>
    if st ≠ 0 then ((false, "安装失败: " ++ pyStrip err), [cmd])
    else ((true, "安装成功"), [cmd])

/-- `install_splunk`: dispatches on the package extension for linux/unix
hosts; an unrecognized extension or an unsupported `os_type` returns an
error with no command executed. -/
def install_splunk (env : Env) (package_path : String) (os_type : String) :
    (Bool × String) × List String :=
  if pyLower os_type == "linux" || pyLower os_type == "unix" then
    if pyEndsWith package_path ".tgz" || pyEndsWith package_path ".tar.gz" then
      runInstallCmd env (tarCmd package_path)
    else if pyEndsWith package_path ".rpm" then
      runInstallCmd env (rpmCmd package_path)
    else if pyEndsWith package_path ".deb" then
      runInstallCmd env (dpkgCmd package_path)
    else ((false, "不支持的安装包格式: " ++ package_path), [])
  else ((false, "不支持的操作系统: " ++ os_type), [])

/-- The configuration commands whose exit statuses `configure_splunk`
reads but never inspects: license acceptance, stop, the two conditional
policy commands, and autostart.  The two `-auth` commands are included
exactly when the corresponding address is non-empty (Python truthiness of
a string). -/
def configure_pre_cmds (cfg : Config) : List String :=
  [acceptLicenseCmd, stopCmd]
    ++ (if cfg.deployment_server ≠ "" then [deployPollCmd cfg.deployment_server] else [])
    ++ (if cfg.receiving_indexer ≠ "" then [forwardServerCmd cfg.receiving_indexer] else [])
    ++ [bootStartCmd]

/-- Runs a command list reading each exit status without inspecting it;
the first raised exception aborts the sequence and is returned. -/
def runSeqIgnore (env : Env) : List String → Option String × List String
  | [] => (none, [])
  | c :: cs =>
    match env c with
    | .raise m => (some m, [c])
    | .ok _ _ _ =>
      let r := runSeqIgnore env cs
      (r.1, c :: r.2)

/-- `configure_splunk`: runs the fixed sequence, then the final
`splunk start`, whose exit status alone decides the result; a raised
exception anywhere is caught and returned as `(False, str(e))`. -/
def configure_splunk (env : Env) (cfg : Config) : (Bool × String) × List String :=
  match runSeqIgnore env (configure_pre_cmds cfg) with
  | (some m, t) => ((false, m), t)
  | (none, t) =>
    match env startCmd with
    | .raise m => ((false, m), t ++ [startCmd])
    | .ok st _ err =>
      if st ≠ 0 then ((false, "启动失败: " ++ pyStrip err), t ++ [startCmd])
      else ((true, "配置成功"), t ++ [startCmd])

/-- `cleanup`: issues the removal when the flag is set; the command's
outcome and any exception are ignored (logged only), so only the trace is
returned. -/
def cleanup (cfg : Config) (package_path : String) : List String :=
  if cfg.cleanup_after_install then [rmCmd package_path] else []

/-! ### The per-host workflow -/

/-- Result of the pipeline from the resource check onwards (steps 3-7 of
`install_on_server`): the result dictionary, the commands issued, and
whether the cleanup step was reached. -/
structure StageOut where
  result : HostResult
  trace : List String
  cleanupAttempted : Bool
deriving DecidableEq

/-- Steps 3-7 of `install_on_server`: resource check, download, install,
configure, cleanup, each early-returning on failure. -/
def install_from_resources (env : Env) (cfg : Config) (server : Server) : StageOut :=
  let rc := check_system_resources env cfg
  if !rc.1.1 then
    ⟨⟨server.host, false, "资源检查失败: " ++ rc.1.2⟩, rc.2, false⟩
  else
    let dl := download_splunk_package env cfg.download_url server.os_type
    if !dl.1.1 then
      ⟨⟨server.host, false, "下载失败: " ++ dl.1.2⟩, rc.2 ++ dl.2, false⟩
    else
      let package_path := dl.1.2
      let inst := install_splunk env package_path server.os_type
      if !inst.1.1 then
        ⟨⟨server.host, false, "安装失败: " ++ inst.1.2⟩, rc.2 ++ dl.2 ++ inst.2, false⟩
      else
        let cf := configure_splunk env cfg
        if !cf.1.1 then
          ⟨⟨server.host, false, "配置失败: " ++ cf.1.2⟩,
            rc.2 ++ dl.2 ++ inst.2 ++ cf.2, false⟩
        else
          ⟨⟨server.host, true, "安装并配置成功"⟩,
            rc.2 ++ dl.2 ++ inst.2 ++ cf.2 ++ cleanup cfg package_path, true⟩

/-- Full observable behaviour of one `install_on_server` call. -/
structure WorkflowOut where
  result : HostResult
  trace : List String
  opened : Bool
  closed : Bool
  cleanupAttempted : Bool
deriving DecidableEq

/-- `install_on_server`: connect, short-circuit on an existing install
unless forced, then run the remaining pipeline.  Every exception inside
the `try` block is caught and turned into a result; the `finally` block
closes the session whenever one was opened (`opened`/`closed` record
this). -/
def install_on_server (henv : HostEnv) (cfg : Config) (server : Server) : WorkflowOut :=
  match henv.connect with
  | some m => ⟨⟨server.host, false, "异常: " ++ m⟩, [], false, false, false⟩
  | none =>
    let ci := check_if_installed henv.exec
    if ci.1 && !cfg.force_reinstall then
      ⟨⟨server.host, true, "Splunk UF 已安装，跳过"⟩, ci.2, true, true, false⟩
    else
      let k := install_from_resources henv.exec cfg server
      ⟨k.result, ci.2 ++ k.trace, true, true, k.cleanupAttempted⟩

/-! ### The fleet orchestration -/

/-- The two early returns of `batch_install`: nothing is dispatched when
the server list is empty (logged as an error) or when dry-run is set. -/
def batch_dispatches (cfg : Config) (dry_run : Bool) : Bool :=
  !cfg.servers.isEmpty && !dry_run

/-- `batch_install` under the one completion schedule that follows
submission order.  The thread pool makes the real completion order
nondeterministic; the `PoolStep` relation below covers the general
interleavings, and the aggregate claims are proved there.  Per future,
exactly one result is appended (either the workflow's result or, should
`future.result()` re-raise, a synthesized failure record). -/
def batch_install (henv : Server → HostEnv) (cfg : Config) (dry_run : Bool) :
    List HostResult :=
  if cfg.servers.isEmpty then []
  else if dry_run then []
  else cfg.servers.map fun s => (install_on_server (henv s) cfg s).result

/-- State of the `ThreadPoolExecutor(max_workers=max_concurrent)` block:
submitted-but-not-started futures, workflows currently executing, and the
results already appended to `self.results`. -/
structure PoolState where
  pending : List Server
  running : List Server
  done : List HostResult
deriving DecidableEq

/-- Small-step semantics of the pool.  `start` dispatches a pending
workflow only while fewer than `limit` are in flight (the `max_workers`
bound of `ThreadPoolExecutor`); `finish` completes a running workflow and
appends its result; `finishRaised` is the `except` branch of the
collection loop, which appends a synthesized failure record for the same
host should `future.result()` re-raise. -/
inductive PoolStep (henv : Server → HostEnv) (cfg : Config) (limit : Nat) :
    PoolState → PoolState → Prop where
  | start (srv : Server) (p r : List Server) (d : List HostResult)
      (hfree : r.length < limit) :
      PoolStep henv cfg limit ⟨srv :: p, r, d⟩ ⟨p, srv :: r, d⟩
  | finish (p r₁ r₂ : List Server) (srv : Server) (d : List HostResult) :
      PoolStep henv cfg limit ⟨p, r₁ ++ srv :: r₂, d⟩
        ⟨p, r₁ ++ r₂, d ++ [(install_on_server (henv srv) cfg srv).result]⟩
  | finishRaised (p r₁ r₂ : List Server) (srv : Server) (d : List HostResult)
      (m : String) :
      PoolStep henv cfg limit ⟨p, r₁ ++ srv :: r₂, d⟩
        ⟨p, r₁ ++ r₂, d ++ [⟨srv.host, false, m⟩]⟩

/-- Initial pool state: every server submitted, nothing started. -/
def poolInit (cfg : Config) : PoolState := ⟨cfg.servers, [], []⟩

/-- States the pool block can be in during one run. -/
def PoolReachable (henv : Server → HostEnv) (cfg : Config) (limit : Nat)
    (s : PoolState) : Prop :=
  Relation.ReflTransGen (PoolStep henv cfg limit) (poolInit cfg) s

/-! ### Process entry -/

/-- What `load_config` finds at the configuration path. -/
inductive ConfigFile where
  | missing
  | malformed (err : String)
  | parsed (cfg : Config)

/-- `load_config`: a missing file (`FileNotFoundError`) and a malformed
one (`json.JSONDecodeError`) both log an error and `sys.exit(1)`,
modelled as `Except.error` carrying the exit status. -/
def load_config : ConfigFile → Except Nat Config
  | .missing => Except.error 1
  | .malformed _ => Except.error 1
  | .parsed cfg => Except.ok cfg

/-- `main`: parse arguments, load the configuration, run `batch_install`.
Returns the process exit status and the collected results; nothing after
`load_config` ever exits with a nonzero status. -/
def mainRun (file : ConfigFile) (dry_run : Bool) (henv : Server → HostEnv) :
    Nat × List HostResult :=
  match load_config file with
  | .error code => (code, [])
  | .ok cfg => (0, batch_install henv cfg dry_run)

/-! ### Helper lemmas about the step functions -/

/-- The installed check issues exactly its test command, on both the
normal and the exception path. -/
theorem check_if_installed_trace (env : Env) :
    (check_if_installed env).2 = [installedCmd] := by
  unfold check_if_installed
  cases env installedCmd <;> rfl

/-- The resource check issues a prefix of its three introspection
commands and nothing else. -/
theorem check_system_resources_trace (env : Env) (cfg : Config) :
    (check_system_resources env cfg).2 = [uptimeCmd] ∨
    (check_system_resources env cfg).2 = [uptimeCmd, memCmd] ∨
    (check_system_resources env cfg).2 = [uptimeCmd, memCmd, diskCmd] := by
  unfold check_system_resources
  rcases env uptimeCmd with _ | m
  · rcases env memCmd with ⟨_, memOut, _⟩ | m
    · rcases hm : pyToInt? (pyStrip memOut) with _ | mem
      · simp [hm]
      · rcases env diskCmd with ⟨_, diskOut, _⟩ | m
        · rcases hd : pyToInt? (pyStrip diskOut) with _ | disk
          · simp [hm, hd]
          · simp only [hm, hd]
            split
            · simp
            · split <;> simp
        · simp [hm]
    · simp
  · simp

/-- Every branch of the post-guard pipeline reports the server's host. -/
theorem install_from_resources_host (env : Env) (cfg : Config) (srv : Server) :
    (install_from_resources env cfg srv).result.host = srv.host := by
  dsimp only [install_from_resources]
  repeat' split
  all_goals rfl

/-- Every branch of the workflow reports the server's host. -/
theorem install_on_server_host (henv : HostEnv) (cfg : Config) (srv : Server) :
    (install_on_server henv cfg srv).result.host = srv.host := by
  dsimp only [install_on_server]
  rcases henv.connect with _ | m
  · dsimp only
    split
    · rfl
    · exact install_from_resources_host henv.exec cfg srv
  · rfl

/-- First character of a string; the remote command families all start
with distinct characters, which is how the trace lemmas tell them
apart. -/
def headChar (s : String) : Option Char := s.data.head?

theorem headChar_append (a b : String) (h : a.data ≠ []) :
    headChar (a ++ b) = headChar a := by
  show ((a ++ b).data).head? = a.data.head?
  rw [String.data_append]
  exact List.head?_append_of_ne_nil a.data h

theorem ne_of_headChar_ne {s t : String} (h : headChar s ≠ headChar t) : s ≠ t :=
  fun e => h (by rw [e])

theorem headChar_downloadCmd (url : String) : headChar (downloadCmd url) = some 'c' := by
  unfold downloadCmd
  rw [headChar_append _ _ (by decide)]
  rfl

theorem headChar_testPackageCmd (url : String) :
    headChar (testPackageCmd url) = some 't' := by
  unfold testPackageCmd
  rw [headChar_append _ _ (by decide)]
  rfl

/-- `True` when a trace consists only of the four guard commands (the
installed test and the three resource probes): such a trace contains no
fetch, install, configuration or cleanup command. -/
def guardOnly (t : List String) : Bool :=
  t.all fun c => c == installedCmd || c == uptimeCmd || c == memCmd || c == diskCmd

theorem not_mem_of_guardOnly {t : List String} (h : guardOnly t = true) {c : String}
    (h1 : c ≠ installedCmd) (h2 : c ≠ uptimeCmd) (h3 : c ≠ memCmd) (h4 : c ≠ diskCmd) :
    c ∉ t := by
  intro hc
  have h' := List.all_eq_true.mp h c hc
  simp only [Bool.or_eq_true, beq_iff_eq] at h'
  rcases h' with ((h' | h') | h') | h'
  exacts [h1 h', h2 h', h3 h', h4 h']

/-- Whether an `exec_command` interaction completed without raising. -/
def execOk : ExecOutcome → Bool
  | .ok _ _ _ => true
  | .raise _ => false

/-- The captured stdout of an interaction (empty for a raised one). -/
def execStdout : ExecOutcome → String
  | .ok _ out _ => out
  | .raise _ => ""

/-! ### Concrete fixtures used by the witnesses -/

/-- A host on which every command succeeds with empty output. -/
def envAllOk : Env := fun _ => .ok 0 "" ""

/-- A host on which the forwarder directory already exists and every
other probe succeeds with empty output. -/
def envInstalled : Env := fun c =>
  if c == installedCmd then .ok 0 " exists\n" "" else .ok 0 "" ""

def srvLinux : Server := ⟨"web-01", 22, "root", some "pw", none, "linux"⟩

def cfgDefault : Config :=
  ⟨[srvLinux], 512, 2048, false, true, "", "", "http://repo.example/splunkforwarder.tgz", 3, 5⟩

/-! ### The claims -/

/-- C8: whenever the workflow opens a remote session, the session is
closed on every exit path -- early skip, failure at any stage, a caught
exception, or full success.  The `finally` block of `install_on_server`
closes the client exactly when one was created, and the only path on
which no session is closed is the one on which `create_ssh_client`
itself raised, so nothing was opened. -/
theorem C8_session_closed_on_every_exit (henv : HostEnv) (cfg : Config) (srv : Server)
    (hopened : (install_on_server henv cfg srv).opened = true) :
    (install_on_server henv cfg srv).closed = true := by
  rcases hc : henv.connect with _ | m
  · unfold install_on_server
    rw [hc]
    dsimp only
    split <;> rfl
  · unfold install_on_server at hopened
    rw [hc] at hopened
    simp at hopened

/-- Witness for C8 at a fully concrete host. -/
theorem C8_witness :
    (install_on_server ⟨none, envAllOk⟩ cfgDefault srvLinux).opened = true ∧
    (install_on_server ⟨none, envAllOk⟩ cfgDefault srvLinux).closed = true :=
  ⟨by decide, C8_session_closed_on_every_exit ⟨none, envAllOk⟩ cfgDefault srvLinux (by decide)⟩

/-- C3: when the forwarder is already installed and force-reinstall is
unset, the workflow returns the success-like skip result having issued
only the existence test -- no resource probe and in particular no fetch,
install or configuration command; when force-reinstall is set the
workflow proceeds into the rest of the pipeline regardless of the
installed check, its behaviour being exactly that of the post-guard
stages. -/
theorem C3_already_installed_skips (henv : HostEnv) (cfg : Config) (srv : Server)
    (hconn : henv.connect = none) :
    ((check_if_installed henv.exec).1 = true → cfg.force_reinstall = false →
      install_on_server henv cfg srv =
        ⟨⟨srv.host, true, "Splunk UF 已安装，跳过"⟩, [installedCmd], true, true, false⟩) ∧
    (cfg.force_reinstall = true →
      install_on_server henv cfg srv =
        ⟨(install_from_resources henv.exec cfg srv).result,
          installedCmd :: (install_from_resources henv.exec cfg srv).trace,
          true, true, (install_from_resources henv.exec cfg srv).cleanupAttempted⟩) := by
  constructor
  · intro hinst hforce
    unfold install_on_server
    rw [hconn]
    dsimp only
    simp [hinst, hforce, check_if_installed_trace]
  · intro hforce
    unfold install_on_server
    rw [hconn]
    dsimp only
    simp [hforce, check_if_installed_trace]

/-- Witness for C3 at a host that reports an existing install. -/
theorem C3_witness :
    install_on_server ⟨none, envInstalled⟩ cfgDefault srvLinux =
      ⟨⟨"web-01", true, "Splunk UF 已安装，跳过"⟩, [installedCmd], true, true, false⟩ :=
  (C3_already_installed_skips ⟨none, envInstalled⟩ cfgDefault srvLinux rfl).1 (by decide) rfl

/-- C2: the resource check fails closed and gates the pipeline.  First
conjunct: the check can only pass when all three introspection reads
completed, both numbers parsed, and both values are at or above their
thresholds -- so a below-threshold value, a read error or a parse failure
of either metric makes it fail.  Second conjunct: when the check fails on
a host the workflow reached (connected, not skipped as already
installed), the outcome is the resource-check failure carrying the
check's reason, and the session trace holds nothing but guard commands --
in particular neither the download command nor the start command, and no
fetch/install/configuration command of any kind. -/
theorem C2_resource_check_fails_closed :
    (∀ (env : Env) (cfg : Config),
      (check_system_resources env cfg).1.1 = true →
      execOk (env uptimeCmd) = true ∧
      execOk (env memCmd) = true ∧
      (pyToInt? (pyStrip (execStdout (env memCmd)))).isSome = true ∧
      cfg.min_memory_mb ≤ (pyToInt? (pyStrip (execStdout (env memCmd)))).getD 0 ∧
      execOk (env diskCmd) = true ∧
      (pyToInt? (pyStrip (execStdout (env diskCmd)))).isSome = true ∧
      cfg.min_disk_mb ≤ (pyToInt? (pyStrip (execStdout (env diskCmd)))).getD 0) ∧
    (∀ (henv : HostEnv) (cfg : Config) (srv : Server),
      henv.connect = none →
      (check_if_installed henv.exec).1 = false ∨ cfg.force_reinstall = true →
      (check_system_resources henv.exec cfg).1.1 = false →
      (install_on_server henv cfg srv).result.success = false ∧
      (install_on_server henv cfg srv).result.message =
        "资源检查失败: " ++ (check_system_resources henv.exec cfg).1.2 ∧
      guardOnly (install_on_server henv cfg srv).trace = true ∧
      downloadCmd cfg.download_url ∉ (install_on_server henv cfg srv).trace ∧
      startCmd ∉ (install_on_server henv cfg srv).trace) := by
  constructor
  · intro env cfg h
    unfold check_system_resources at h
    rcases hu : env uptimeCmd with ⟨s1, o1, e1⟩ | m <;> rw [hu] at h <;> dsimp only at h
    · rcases hm : env memCmd with ⟨s2, o2, e2⟩ | m <;> rw [hm] at h <;> dsimp only at h
      · rcases hmi : pyToInt? (pyStrip o2) with _ | mem <;> rw [hmi] at h <;> dsimp only at h
        · simp at h
        · rcases hd : env diskCmd with ⟨s3, o3, e3⟩ | m <;> rw [hd] at h <;> dsimp only at h
          · rcases hdi : pyToInt? (pyStrip o3) with _ | disk <;> rw [hdi] at h <;>
              dsimp only at h
            · simp at h
            · split at h
              · simp at h
              · split at h
                · simp at h
                · refine ⟨?_, ?_, ?_, ?_, ?_, ?_, ?_⟩ <;>
                    simp [hu, hm, hmi, hd, hdi, execOk, execStdout] <;> omega
          · simp at h
      · simp at h
    · simp at h
  · intro henv cfg srv hconn hguard hfail
    have hskip : ((check_if_installed henv.exec).1 && !cfg.force_reinstall) = false := by
      rcases hguard with h | h <;> simp [h]
    have hout : install_on_server henv cfg srv =
        ⟨⟨srv.host, false, "资源检查失败: " ++ (check_system_resources henv.exec cfg).1.2⟩,
          installedCmd :: (check_system_resources henv.exec cfg).2, true, true, false⟩ := by
      unfold install_on_server
      rw [hconn]
      dsimp only
      rw [hskip]
      unfold install_from_resources
      dsimp only
      rw [hfail]
      simp [check_if_installed_trace]
    have htrace : (install_on_server henv cfg srv).trace =
        installedCmd :: (check_system_resources henv.exec cfg).2 := by rw [hout]
    have hguardOnly : guardOnly (install_on_server henv cfg srv).trace = true := by
      rw [htrace]
      rcases check_system_resources_trace henv.exec cfg with h | h | h <;> rw [h] <;> decide
    refine ⟨by rw [hout], by rw [hout], hguardOnly, ?_, ?_⟩
    · exact not_mem_of_guardOnly hguardOnly
        (ne_of_headChar_ne (by rw [headChar_downloadCmd]; decide))
        (ne_of_headChar_ne (by rw [headChar_downloadCmd]; decide))
        (ne_of_headChar_ne (by rw [headChar_downloadCmd]; decide))
        (ne_of_headChar_ne (by rw [headChar_downloadCmd]; decide))
    · exact not_mem_of_guardOnly hguardOnly (by decide) (by decide) (by decide) (by decide)

/-- A host with memory below the default threshold. -/
def envLowMem : Env := fun c =>
  if c == memCmd then .ok 0 "100\n" ""
  else if c == diskCmd then .ok 0 "99999\n" ""
  else .ok 0 "" ""

/-- A host with comfortable resources. -/
def envGoodRes : Env := fun c =>
  if c == memCmd then .ok 0 "4096\n" ""
  else if c == diskCmd then .ok 0 "99999\n" ""
  else .ok 0 "" ""

/-- Witness for C2: a passing check at a healthy host, and the gated
failure at a host with 100 MB free against the 512 MB threshold. -/
theorem C2_witness :
    (execOk (envGoodRes uptimeCmd) = true ∧
     execOk (envGoodRes memCmd) = true ∧
     (pyToInt? (pyStrip (execStdout (envGoodRes memCmd)))).isSome = true ∧
     cfgDefault.min_memory_mb ≤ (pyToInt? (pyStrip (execStdout (envGoodRes memCmd)))).getD 0 ∧
     execOk (envGoodRes diskCmd) = true ∧
     (pyToInt? (pyStrip (execStdout (envGoodRes diskCmd)))).isSome = true ∧
     cfgDefault.min_disk_mb ≤ (pyToInt? (pyStrip (execStdout (envGoodRes diskCmd)))).getD 0) ∧
    ((install_on_server ⟨none, envLowMem⟩ cfgDefault srvLinux).result.success = false ∧
     (install_on_server ⟨none, envLowMem⟩ cfgDefault srvLinux).result.message =
       "资源检查失败: " ++ (check_system_resources envLowMem cfgDefault).1.2 ∧
     guardOnly (install_on_server ⟨none, envLowMem⟩ cfgDefault srvLinux).trace = true ∧
     downloadCmd cfgDefault.download_url ∉
       (install_on_server ⟨none, envLowMem⟩ cfgDefault srvLinux).trace ∧
     startCmd ∉ (install_on_server ⟨none, envLowMem⟩ cfgDefault srvLinux).trace) :=
  ⟨C2_resource_check_fails_closed.1 envGoodRes cfgDefault (by decide),
   C2_resource_check_fails_closed.2 ⟨none, envLowMem⟩ cfgDefault srvLinux rfl
     (Or.inl (by decide)) (by decide)⟩

/-- C5 counterexample: with `os_type = "windows"` against a host where
the artifact is absent, the fetch step does not surface any
unsupported-OS error -- it returns success -- and the network download
command is issued.  The claim as stated is therefore false: the
unsupported-OS guard is not in the artifact-fetch step. -/
theorem C5_counterexample :
    (download_splunk_package envAllOk "http://repo.example/splunkforwarder.tgz" "windows").1 =
      (true, "/tmp/splunkforwarder.tgz") ∧
    downloadCmd "http://repo.example/splunkforwarder.tgz" ∈
      (download_splunk_package envAllOk "http://repo.example/splunkforwarder.tgz" "windows").2 := by
  decide

/-- C5 (amended): the unsupported-OS guard lives in the install step, not
the fetch step.  For any os type other than linux/unix (after Python
`.lower()`), `install_splunk` returns the unsupported-OS error having
executed no command, while `download_splunk_package` never consults
`os_type` at all: its result and trace are those it would produce for a
linux host, download included. -/
theorem C5_unsupported_os_rejected_at_install (env : Env) (package_path os_type : String)
    (h1 : pyLower os_type ≠ "linux") (h2 : pyLower os_type ≠ "unix") :
    install_splunk env package_path os_type =
      ((false, "不支持的操作系统: " ++ os_type), []) ∧
    ∀ url, download_splunk_package env url os_type =
      download_splunk_package env url "linux" := by
  constructor
  · unfold install_splunk
    have hb1 : (pyLower os_type == "linux") = false := by
      simp [beq_eq_false_iff_ne, h1]
    have hb2 : (pyLower os_type == "unix") = false := by
      simp [beq_eq_false_iff_ne, h2]
    rw [hb1, hb2]
    rfl
  · intro url
    rfl

/-- Witness for C5 (amended) at `os_type = "windows"`. -/
theorem C5_witness :
    install_splunk envAllOk "/tmp/splunkforwarder.tgz" "windows" =
      ((false, "不支持的操作系统: windows"), []) ∧
    download_splunk_package envAllOk "http://repo.example/splunkforwarder.tgz" "windows" =
      download_splunk_package envAllOk "http://repo.example/splunkforwarder.tgz" "linux" :=
  ⟨(C5_unsupported_os_rejected_at_install envAllOk "/tmp/splunkforwarder.tgz" "windows"
      (by decide) (by decide)).1,
   (C5_unsupported_os_rejected_at_install envAllOk "/tmp/splunkforwarder.tgz" "windows"
      (by decide) (by decide)).2 "http://repo.example/splunkforwarder.tgz"⟩

/-- C7: the fetch is idempotent.  Against a host whose temp area already
holds a file with the derived artifact name, the fetch returns that path
having issued only the uname probe and the existence test; the
environment being a fixed per-command oracle, a second invocation behaves
identically, so the download command appears in neither trace: invoking
fetch twice issues no download at all, in particular no second one. -/
theorem C7_fetch_idempotent (env : Env) (url os_type : String)
    (s1 : Nat) (o1 e1 : String) (s2 : Nat) (o2 e2 : String)
    (huname : env unameCmd = .ok s1 o1 e1)
    (htest : env (testPackageCmd url) = .ok s2 o2 e2)
    (hexists : pyStrip o2 = "exists") :
    download_splunk_package env url os_type =
      ((true, "/tmp/" ++ package_name url), [unameCmd, testPackageCmd url]) ∧
    downloadCmd url ∉
      (download_splunk_package env url os_type).2 ++
        (download_splunk_package env url os_type).2 := by
  have hdl : download_splunk_package env url os_type =
      ((true, "/tmp/" ++ package_name url), [unameCmd, testPackageCmd url]) := by
    unfold download_splunk_package
    rw [huname]
    dsimp only
    rw [htest]
    dsimp only
    rw [hexists]
    simp
  have h1 : downloadCmd url ≠ unameCmd :=
    ne_of_headChar_ne (by rw [headChar_downloadCmd]; decide)
  have h2 : downloadCmd url ≠ testPackageCmd url :=
    ne_of_headChar_ne (by rw [headChar_downloadCmd, headChar_testPackageCmd]; decide)
  refine ⟨hdl, ?_⟩
  rw [hdl]
  simp [h1, h2]

/-- A host whose temp area already holds the artifact. -/
def envPkgExists : Env := fun c =>
  if c == testPackageCmd "http://repo.example/splunkforwarder.tgz" then .ok 0 "exists\n" ""
  else .ok 0 "" ""

/-- Witness for C7 at a host that reports the artifact as present. -/
theorem C7_witness :
    download_splunk_package envPkgExists "http://repo.example/splunkforwarder.tgz" "linux" =
      ((true, "/tmp/splunkforwarder.tgz"),
        [unameCmd, testPackageCmd "http://repo.example/splunkforwarder.tgz"]) ∧
    downloadCmd "http://repo.example/splunkforwarder.tgz" ∉
      (download_splunk_package envPkgExists "http://repo.example/splunkforwarder.tgz" "linux").2 ++
        (download_splunk_package envPkgExists "http://repo.example/splunkforwarder.tgz" "linux").2 :=
  C7_fetch_idempotent envPkgExists "http://repo.example/splunkforwarder.tgz" "linux"
    0 "" "" 0 "exists\n" "" (by decide) (by decide) (by decide)

/-- C6: when the pipeline reaches configuration and the final start
command exits nonzero, the host fails at the configuration stage with the
captured stderr in its message, and cleanup is not attempted.  The
intermediate configuration steps (license acceptance, stop, the two
conditional policy pushes, autostart) are constrained here only not to
raise -- their exit statuses are unconstrained and so cannot determine
the result. -/
theorem C6_config_start_failure_no_cleanup (henv : HostEnv) (cfg : Config) (srv : Server)
    (st : Nat) (out err : String)
    (hconn : henv.connect = none)
    (hguard : (check_if_installed henv.exec).1 = false ∨ cfg.force_reinstall = true)
    (hres : (check_system_resources henv.exec cfg).1.1 = true)
    (hdl : (download_splunk_package henv.exec cfg.download_url srv.os_type).1.1 = true)
    (hinst : (install_splunk henv.exec
        (download_splunk_package henv.exec cfg.download_url srv.os_type).1.2
        srv.os_type).1.1 = true)
    (hpre : (runSeqIgnore henv.exec (configure_pre_cmds cfg)).1 = none)
    (hstart : henv.exec startCmd = .ok st out err) (hst : st ≠ 0) :
    (install_on_server henv cfg srv).result.success = false ∧
    (install_on_server henv cfg srv).result.message =
      "配置失败: 启动失败: " ++ pyStrip err ∧
    (install_on_server henv cfg srv).cleanupAttempted = false := by
  have hcf : (configure_splunk henv.exec cfg).1 = (false, "启动失败: " ++ pyStrip err) := by
    unfold configure_splunk
    rcases hpair : runSeqIgnore henv.exec (configure_pre_cmds cfg) with ⟨o, t⟩
    rw [hpair] at hpre
    dsimp only at hpre
    subst hpre
    dsimp only
    rw [hstart]
    dsimp only
    rw [if_pos hst]
  have hskip : ((check_if_installed henv.exec).1 && !cfg.force_reinstall) = false := by
    rcases hguard with h | h <;> simp [h]
  have hstage : install_from_resources henv.exec cfg srv =
      ⟨⟨srv.host, false, "配置失败: " ++ (configure_splunk henv.exec cfg).1.2⟩,
        (check_system_resources henv.exec cfg).2 ++
          (download_splunk_package henv.exec cfg.download_url srv.os_type).2 ++
          (install_splunk henv.exec
            (download_splunk_package henv.exec cfg.download_url srv.os_type).1.2
            srv.os_type).2 ++
          (configure_splunk henv.exec cfg).2, false⟩ := by
    unfold install_from_resources
    dsimp only
    rw [hres, hdl, hinst]
    have hcfail : (configure_splunk henv.exec cfg).1.1 = false := by rw [hcf]
    rw [hcfail]
    rfl
  have hout : install_on_server henv cfg srv =
      ⟨(install_from_resources henv.exec cfg srv).result,
        (check_if_installed henv.exec).2 ++ (install_from_resources henv.exec cfg srv).trace,
        true, true, (install_from_resources henv.exec cfg srv).cleanupAttempted⟩ := by
    unfold install_on_server
    rw [hconn]
    dsimp only
    rw [hskip]
    simp
  refine ⟨?_, ?_, ?_⟩
  · rw [hout]
    dsimp only
    rw [hstage]
  · rw [hout]
    dsimp only
    rw [hstage]
    dsimp only
    rw [show (configure_splunk henv.exec cfg).1.2 = "启动失败: " ++ pyStrip err from by
      rw [hcf]]
    exact String.ext rfl
  · rw [hout]
    dsimp only
    rw [hstage]

/-- A healthy host on which only the final start command fails. -/
def envStartFails : Env := fun c =>
  if c == memCmd then .ok 0 "4096\n" ""
  else if c == diskCmd then .ok 0 "99999\n" ""
  else if c == startCmd then .ok 1 "" "splunkd failed to start"
  else .ok 0 "" ""

/-- Witness for C6: install succeeds, the start command exits 1, the host
fails at the configuration stage and no cleanup command is attempted. -/
theorem C6_witness :
    (install_on_server ⟨none, envStartFails⟩ cfgDefault srvLinux).result.success = false ∧
    (install_on_server ⟨none, envStartFails⟩ cfgDefault srvLinux).result.message =
      "配置失败: 启动失败: splunkd failed to start" ∧
    (install_on_server ⟨none, envStartFails⟩ cfgDefault srvLinux).cleanupAttempted = false :=
  C6_config_start_failure_no_cleanup ⟨none, envStartFails⟩ cfgDefault srvLinux
    1 "" "splunkd failed to start" rfl (Or.inl (by decide)) (by decide) (by decide)
    (by decide) (by decide) (by decide) (by decide)

/-! ### Fleet-level invariants -/

/-- Multiplicity of a host name among collected results. -/
def hostCountIn (l : List HostResult) (name : String) : Nat :=
  l.countP fun r => r.host == name

/-- Multiplicity of a host name among configured servers. -/
def serverCountIn (l : List Server) (name : String) : Nat :=
  l.countP fun t => t.host == name

/-- Every pool step conserves the total number of futures: pending plus
running plus collected results always equals the number of configured
servers. -/
theorem pool_length_invariant (henv : Server → HostEnv) (cfg : Config) (limit : Nat)
    (s : PoolState) (h : PoolReachable henv cfg limit s) :
    s.pending.length + s.running.length + s.done.length = cfg.servers.length := by
  induction h with
  | refl => simp [poolInit]
  | tail _ step ih =>
    cases step with
    | start srv p r d hfree =>
      simp only [List.length_cons] at ih ⊢
      omega
    | finish p r₁ r₂ srv d =>
      simp only [List.length_append, List.length_cons, List.length_nil] at ih ⊢
      omega
    | finishRaised p r₁ r₂ srv d m =>
      simp only [List.length_append, List.length_cons, List.length_nil] at ih ⊢
      omega

/-- Every pool step conserves the per-host multiplicity: for each host
name, pending plus running plus collected results carry exactly as many
entries for it as the configuration does.  The `finish` case uses the
fact that every workflow result names the server it ran for, and the
`finishRaised` case that the synthesized record does too. -/
theorem pool_count_invariant (henv : Server → HostEnv) (cfg : Config) (limit : Nat)
    (s : PoolState) (h : PoolReachable henv cfg limit s) (name : String) :
    serverCountIn s.pending name + serverCountIn s.running name +
      hostCountIn s.done name = serverCountIn cfg.servers name := by
  induction h with
  | refl => simp [poolInit, hostCountIn, serverCountIn]
  | tail _ step ih =>
    cases step with
    | start srv p r d hfree =>
      simp only [serverCountIn, hostCountIn, List.countP_cons] at ih ⊢
      omega
    | finish p r₁ r₂ srv d =>
      have hh : ((install_on_server (henv srv) cfg srv).result.host == name) =
          (srv.host == name) := by
        rw [install_on_server_host]
      simp only [serverCountIn, hostCountIn, List.countP_append, List.countP_cons,
        List.countP_nil, hh] at ih ⊢
      omega
    | finishRaised p r₁ r₂ srv d m =>
      simp only [serverCountIn, hostCountIn, List.countP_append, List.countP_cons,
        List.countP_nil] at ih ⊢
      omega

/-- C4: at every reachable state of a fleet run, the number of workflows
in flight never exceeds the configured `max_concurrent_installs`: the
dispatch step is guarded by a free worker slot, so further dispatches
wait until one frees. -/
theorem C4_concurrency_never_exceeds_limit (henv : Server → HostEnv) (cfg : Config)
    (s : PoolState) (h : PoolReachable henv cfg cfg.max_concurrent_installs s) :
    s.running.length ≤ cfg.max_concurrent_installs := by
  induction h with
  | refl => simp [poolInit]
  | tail _ step ih =>
    cases step with
    | start srv p r d hfree => simpa using hfree
    | finish p r₁ r₂ srv d =>
      simp only [List.length_append, List.length_cons] at ih ⊢
      omega
    | finishRaised p r₁ r₂ srv d m =>
      simp only [List.length_append, List.length_cons] at ih ⊢
      omega

/-- C1: in a dispatched run (host list non-empty, not dry-run), once the
pool drains -- no pending and no running futures -- exactly one result
has been collected per host descriptor: the totals match and every host
name occurs exactly as often among the results as among the descriptors,
whichever way the completions interleaved and even if a workflow's future
re-raised. -/
theorem C1_exactly_one_result_per_host (henv : Server → HostEnv) (cfg : Config)
    (dry_run : Bool) (s : PoolState)
    (hrun : batch_dispatches cfg dry_run = true)
    (hreach : PoolReachable henv cfg cfg.max_concurrent_installs s)
    (hpending : s.pending = []) (hrunning : s.running = []) :
    s.done.length = cfg.servers.length ∧
    ∀ name : String, hostCountIn s.done name = serverCountIn cfg.servers name := by
  constructor
  · have h := pool_length_invariant henv cfg cfg.max_concurrent_installs s hreach
    rw [hpending, hrunning] at h
    simpa using h
  · intro name
    have h := pool_count_invariant henv cfg cfg.max_concurrent_installs s hreach name
    rw [hpending, hrunning] at h
    simpa [serverCountIn] using h

/-- A second target host. -/
def srvLinux2 : Server := ⟨"web-02", 22, "root", some "pw", none, "linux"⟩

/-- Two hosts under a single-slot pool. -/
def cfgPair : Config :=
  ⟨[srvLinux, srvLinux2], 512, 2048, false, true, "", "",
    "http://repo.example/splunkforwarder.tgz", 1, 0⟩

def henvPair : Server → HostEnv := fun _ => ⟨none, envAllOk⟩

/-- Witness for C4: after one dispatch under limit 1, one workflow is in
flight, within the bound. -/
theorem C4_witness :
    (⟨[srvLinux2], [srvLinux], []⟩ : PoolState).running.length ≤
      cfgPair.max_concurrent_installs :=
  C4_concurrency_never_exceeds_limit henvPair cfgPair ⟨[srvLinux2], [srvLinux], []⟩
    (Relation.ReflTransGen.single (PoolStep.start srvLinux [srvLinux2] [] [] (by decide)))

/-- Witness for C1: a complete serialized run of the two-host pool under
limit 1 collects exactly two results, one per host. -/
theorem C1_witness :
    ([(install_on_server (henvPair srvLinux) cfgPair srvLinux).result,
      (install_on_server (henvPair srvLinux2) cfgPair srvLinux2).result].length =
        cfgPair.servers.length) ∧
    hostCountIn
      [(install_on_server (henvPair srvLinux) cfgPair srvLinux).result,
        (install_on_server (henvPair srvLinux2) cfgPair srvLinux2).result] "web-01" =
      serverCountIn cfgPair.servers "web-01" := by
  have step1 : PoolStep henvPair cfgPair 1 ⟨[srvLinux, srvLinux2], [], []⟩
      ⟨[srvLinux2], [srvLinux], []⟩ :=
    PoolStep.start srvLinux [srvLinux2] [] [] (by decide)
  have step2 : PoolStep henvPair cfgPair 1 ⟨[srvLinux2], [srvLinux], []⟩
      ⟨[srvLinux2], [], [(install_on_server (henvPair srvLinux) cfgPair srvLinux).result]⟩ :=
    PoolStep.finish [srvLinux2] [] [] srvLinux []
  have step3 : PoolStep henvPair cfgPair 1
      ⟨[srvLinux2], [], [(install_on_server (henvPair srvLinux) cfgPair srvLinux).result]⟩
      ⟨[], [srvLinux2], [(install_on_server (henvPair srvLinux) cfgPair srvLinux).result]⟩ :=
    PoolStep.start srvLinux2 [] []
      [(install_on_server (henvPair srvLinux) cfgPair srvLinux).result] (by decide)
  have step4 : PoolStep henvPair cfgPair 1
      ⟨[], [srvLinux2], [(install_on_server (henvPair srvLinux) cfgPair srvLinux).result]⟩
      ⟨[], [], [(install_on_server (henvPair srvLinux) cfgPair srvLinux).result,
        (install_on_server (henvPair srvLinux2) cfgPair srvLinux2).result]⟩ :=
    PoolStep.finish [] [] [] srvLinux2
      [(install_on_server (henvPair srvLinux) cfgPair srvLinux).result]
  have hreach : PoolReachable henvPair cfgPair cfgPair.max_concurrent_installs
      ⟨[], [], [(install_on_server (henvPair srvLinux) cfgPair srvLinux).result,
        (install_on_server (henvPair srvLinux2) cfgPair srvLinux2).result]⟩ :=
    Relation.ReflTransGen.tail
      (Relation.ReflTransGen.tail
        (Relation.ReflTransGen.tail (Relation.ReflTransGen.single step1) step2) step3) step4
  have h := C1_exactly_one_result_per_host henvPair cfgPair false _ rfl hreach rfl rfl
  exact ⟨h.1, h.2 "web-01"⟩

/-! ### Process-level error handling -/

/-- A configuration with no hosts at all. -/
def cfgNoHosts : Config :=
  ⟨[], 512, 2048, false, true, "", "", "http://repo.example/splunkforwarder.tgz", 3, 5⟩

/-- An environment in which every connection attempt raises. -/
def henvDown : Server → HostEnv :=
  fun _ => ⟨some "Connection refused", fun _ => .raise "dead"⟩

/-- C9 counterexample: with a well-formed configuration whose server list
is empty, `batch_install` logs an error and returns normally, so the
process exits with status 0 -- not the nonzero status the claim asserts
for a total absence of hosts. -/
theorem C9_counterexample :
    (mainRun (ConfigFile.parsed cfgNoHosts) false henvDown).1 = 0 := rfl

/-- C9 (amended): configuration-load failures (missing or malformed file)
are the only nonzero exits -- `sys.exit(1)` with a logged message, no run
attempted.  A total absence of hosts aborts the run before any dispatch
but the process then exits with status 0.  Per-host failures never abort
the fleet run or the process: any parsed configuration yields exit status
0, and a dispatched run still collects one result per host. -/
theorem C9_only_config_load_fatal :
    (∀ (dry : Bool) (henv : Server → HostEnv),
      (mainRun ConfigFile.missing dry henv).1 = 1) ∧
    (∀ (e : String) (dry : Bool) (henv : Server → HostEnv),
      (mainRun (ConfigFile.malformed e) dry henv).1 = 1) ∧
    (∀ (cfg : Config) (dry : Bool) (henv : Server → HostEnv),
      (mainRun (ConfigFile.parsed cfg) dry henv).1 = 0) ∧
    (∀ (cfg : Config) (henv : Server → HostEnv), cfg.servers ≠ [] →
      (batch_install henv cfg false).length = cfg.servers.length) := by
  refine ⟨fun _ _ => rfl, fun _ _ _ => rfl, fun _ _ _ => rfl, ?_⟩
  intro cfg henv hne
  unfold batch_install
  have h : cfg.servers.isEmpty = false := by
    rcases hs : cfg.servers with _ | ⟨a, l⟩
    · exact absurd hs hne
    · rfl
  rw [h]
  simp

/-- Witness for C9 (amended) at concrete configurations. -/
theorem C9_witness :
    (mainRun ConfigFile.missing false henvDown).1 = 1 ∧
    (mainRun (ConfigFile.malformed "Expecting value: line 1 column 1") false henvDown).1 = 1 ∧
    (mainRun (ConfigFile.parsed cfgPair) false henvPair).1 = 0 ∧
    (batch_install henvPair cfgPair false).length = cfgPair.servers.length :=
  ⟨C9_only_config_load_fatal.1 false henvDown,
   C9_only_config_load_fatal.2.1 "Expecting value: line 1 column 1" false henvDown,
   C9_only_config_load_fatal.2.2.1 cfgPair false henvPair,
   C9_only_config_load_fatal.2.2.2 cfgPair henvPair (by decide)⟩

/-- C10: whenever a deployment server or receiving indexer is configured
non-empty, the corresponding configuration command issued to the host is
the fixed template around that one address, carrying the literal
credential `admin:changeme`.  Both commands are functions of that single
address, and the statement holds for every configuration, so no
run-configuration field can supply a different administrative
credential. -/
theorem C10_hardcoded_admin_credential (cfg : Config) :
    (cfg.deployment_server ≠ "" →
      deployPollCmd cfg.deployment_server ∈ configure_pre_cmds cfg ∧
      List.IsInfix "admin:changeme".data (deployPollCmd cfg.deployment_server).data) ∧
    (cfg.receiving_indexer ≠ "" →
      forwardServerCmd cfg.receiving_indexer ∈ configure_pre_cmds cfg ∧
      List.IsInfix "admin:changeme".data (forwardServerCmd cfg.receiving_indexer).data) := by
  constructor
  · intro h
    constructor
    · unfold configure_pre_cmds
      rw [if_pos h]
      simp
    · have h1 : "admin:changeme".data <:+ (" -auth admin:changeme" : String).data :=
        ⟨(" -auth " : String).data, by decide⟩
      have h2 : (" -auth admin:changeme" : String).data <:+
          (deployPollCmd cfg.deployment_server).data := by
        show (" -auth admin:changeme" : String).data <:+
          ("/opt/splunkforwarder/bin/splunk set deploy-poll " : String).data ++
            (cfg.deployment_server.data ++ (" -auth admin:changeme" : String).data)
        rw [← List.append_assoc]
        exact List.suffix_append _ _
      exact (h1.trans h2).isInfix
  · intro h
    constructor
    · unfold configure_pre_cmds
      rw [if_pos h]
      simp
    · have h1 : "admin:changeme".data <:+ (" -auth admin:changeme" : String).data :=
        ⟨(" -auth " : String).data, by decide⟩
      have h2 : (" -auth admin:changeme" : String).data <:+
          (forwardServerCmd cfg.receiving_indexer).data := by
        show (" -auth admin:changeme" : String).data <:+
          ("/opt/splunkforwarder/bin/splunk add forward-server " : String).data ++
            (cfg.receiving_indexer.data ++ (" -auth admin:changeme" : String).data)
        rw [← List.append_assoc]
        exact List.suffix_append _ _
      exact (h1.trans h2).isInfix

/-- A configuration with both addresses set. -/
def cfgAddrs : Config :=
  ⟨[srvLinux], 512, 2048, false, true, "ds.example:8089", "idx.example:9997",
    "http://repo.example/splunkforwarder.tgz", 3, 5⟩

/-- Witness for C10 at a configuration naming both addresses. -/
theorem C10_witness :
    (deployPollCmd cfgAddrs.deployment_server ∈ configure_pre_cmds cfgAddrs ∧
      List.IsInfix "admin:changeme".data (deployPollCmd cfgAddrs.deployment_server).data) ∧
    (forwardServerCmd cfgAddrs.receiving_indexer ∈ configure_pre_cmds cfgAddrs ∧
      List.IsInfix "admin:changeme".data (forwardServerCmd cfgAddrs.receiving_indexer).data) :=
  ⟨(C10_hardcoded_admin_credential cfgAddrs).1 (by decide),
   (C10_hardcoded_admin_credential cfgAddrs).2 (by decide)⟩
